import Mathlib

/-!
Verification of the chat-style school-records front end
(`src/static/js/scripts.js` of `srjmnh/student_ai`).

The development shallowly embeds the reply-classification / panel-state
logic, the editable-grid diff extraction, the delete workflow and the
grades synchronization of `scripts.js`.  DOM state that the script reads
and writes (panel `show` classes, panel `innerHTML`, chat bubbles, toast
notifications, the prompt input) is modelled as an explicit `UIState`
record; network calls are modelled by passing the response the remote
end would give as an explicit argument, together with a record of which
request (if any) was issued.
-/

/-! ## JavaScript string primitives -/

/-- The JavaScript whitespace set used by `String.prototype.trim` and
`parseInt`: WhiteSpace (TAB, VT, FF, SP, NBSP, BOM, Unicode space
separators) together with the line terminators LF, CR, LS, PS. -/
def jsIsWhitespaceChar (c : Char) : Bool :=
  let n := c.toNat
  n == 9 || n == 10 || n == 11 || n == 12 || n == 13 || n == 32 ||
  n == 160 || n == 0x1680 || (0x2000 ≤ n && n ≤ 0x200A) ||
  n == 0x2028 || n == 0x2029 || n == 0x202F || n == 0x205F || n == 0x3000 || n == 0xFEFF

/-- JavaScript `s.trim()`: drop leading and trailing whitespace. -/
def jsTrim (s : String) : String :=
  String.mk (((s.data.dropWhile jsIsWhitespaceChar).reverse.dropWhile jsIsWhitespaceChar).reverse)

/-- JavaScript `s.includes(pat)`: substring containment. -/
def jsIncludes (s pat : String) : Bool := decide (pat.data <:+: s.data)

/-- Value of a character as a digit in the given radix (`0-9`, `a-z`,
`A-Z`), as JavaScript `parseInt` accepts them; `none` if the character
is not a digit of that radix. -/
def digitVal? (radix : Nat) (c : Char) : Option Nat :=
  let v : Option Nat :=
    if c.isDigit then some (c.toNat - 48)
    else if 97 ≤ c.toNat && c.toNat ≤ 122 then some (c.toNat - 97 + 10)
    else if 65 ≤ c.toNat && c.toNat ≤ 90 then some (c.toNat - 65 + 10)
    else none
  match v with
  | some n => if n < radix then some n else none
  | none => none

/-- Accumulate the longest leading run of radix digits; `none` when no
digit was consumed at all (JavaScript `parseInt` returns `NaN` then). -/
def parseDigits (radix : Nat) : List Char → Nat → Bool → Option Nat
  | [], acc, seen => if seen then some acc else none
  | c :: rest, acc, seen =>
    match digitVal? radix c with
    | some d => parseDigits radix rest (acc * radix + d) true
    | none => if seen then some acc else none

/-- JavaScript `parseInt(s)` with no radix argument: skip leading
whitespace, read an optional sign, switch to hexadecimal on a `0x`/`0X`
prefix, then read the longest leading digit run; `none` models `NaN`.
(The float rounding of very large results is not modelled; no claim
involves magnitudes near 2^53.) -/
def jsParseInt (s : String) : Option Int :=
  let cs := s.data.dropWhile jsIsWhitespaceChar
  let signAndRest : Int × List Char :=
    match cs with
    | '-' :: rest => (-1, rest)
    | '+' :: rest => (1, rest)
    | _ => (1, cs)
  let radixAndRest : Nat × List Char :=
    match signAndRest.2 with
    | '0' :: 'x' :: rest => (16, rest)
    | '0' :: 'X' :: rest => (16, rest)
    | _ => (10, signAndRest.2)
  (parseDigits radixAndRest.1 radixAndRest.2 0 false).map (fun n => signAndRest.1 * n)

/-- JavaScript `parseInt(s.trim()) || 0` as written in `saveGradesEdits`:
`NaN` is falsy and coerces to `0`; a parsed `0` is also falsy and `|| 0`
yields `0` again, so the composite is exactly `getD 0`. -/
def jsParseIntOr0 (s : String) : Int := (jsParseInt (jsTrim s)).getD 0

/-- JavaScript `x || d` on an optional string: an absent or empty string
is falsy and yields the default. Used for `data.error || 'unknown'`. -/
def jsOrDefault (o : Option String) (d : String) : String :=
  match o with
  | some s => if s = "" then d else s
  | none => d

/-- JavaScript truthiness of an optional string field (`data.message`,
`data.error`): present and non-empty. -/
def jsTruthy (o : Option String) : Bool :=
  match o with
  | some s => !(s == "")
  | none => false

/-- A single-quote character as a string (used in message and markup
literals of the source). -/
def quoteChar : String := String.mk [Char.ofNat 39]

/-! ## Notifications (the `showToast` sink) and chat bubbles -/

/-- Bootstrap contextual level passed to `showToast(message, type)`. -/
inductive ToastType
  | primary
  | success
  | danger
  | warning
  | info
  | secondary
deriving DecidableEq, Repr

/-- One toast notification: `showToast` sets `toastBody.innerText` to the
message and the contextual class to the type. -/
structure Toast where
  message : String
  type : ToastType
deriving DecidableEq, Repr

/-! ## The page state touched by `scripts.js`

A chat bubble is `(text, isUser)` as appended by `addBubble`.
`tableContent` is `tablePanel.innerHTML` (the student grid lives inside
it); `gradesContent` is the `#gradesContent` subtree holding the grades
grid.  `tableShow` / `gradesShow` model the `show` class on
`tablePanel` / `gradesSection`, `slideLeft` the `slideLeft` class on
`chatSection`, `typing` the presence of the `#typingIndicator` bubble. -/
structure UIState where
  tableShow : Bool
  gradesShow : Bool
  slideLeft : Bool
  tableContent : String
  gradesContent : String
  bubbles : List (String × Bool)
  toasts : List Toast
  inputValue : String
  typing : Bool
deriving DecidableEq, Repr

/-! ## Reply classification and the panels (`parseReply`, lines 77-90) -/

/-- The content test of `parseReply`:
`reply.includes(<table) || reply.includes(slideFromRight)`. -/
def isTableReply (reply : String) : Bool :=
  jsIncludes reply "<table" || jsIncludes reply "slideFromRight"

/-- `parseReply` (scripts.js lines 77-90): a table reply becomes
`tablePanel.innerHTML`, the table panel gains `show` and the chat
section slides left (`initializeTableFunctionality` and
`populateClassDivisionFilter` only attach listeners and fetch filter
options and touch none of the state modelled here); any other reply is
appended as an AI bubble with a success toast.  Note that neither branch
touches `gradesSection`. -/
def parseReply (reply : String) (st : UIState) : UIState :=
  if isTableReply reply then
    { st with tableContent := reply, tableShow := true, slideLeft := true }
  else
    { st with bubbles := st.bubbles ++ [(reply, false)],
              toasts := st.toasts ++ [Toast.mk "New message received." ToastType.success] }

/-- Exactly one of the two data panels is open and the other closed. -/
def exactlyOnePanelOpen (st : UIState) : Bool :=
  (st.tableShow && !st.gradesShow) || (!st.tableShow && st.gradesShow)

/-! ## Outcome of a network request -/

/-- Outcome of a `fetch`: a parsed JSON body, or a rejection caught by
the surrounding `try`/`catch` (network failure), carrying the error text
that gets string-concatenated into messages. -/
inductive FetchResult (α : Type)
  | ok (data : α)
  | netError (err : String)
deriving DecidableEq, Repr

/-! ## `sendPrompt` (lines 49-74), synchronous prefix -/

/-- The part of `sendPrompt` up to issuing the request: trim the input;
an empty result returns immediately, otherwise the prompt is appended as
a user bubble, the input is cleared, the typing indicator is added, and
the request body (the prompt) is returned for the `fetch`. -/
def sendPromptPre (st : UIState) : UIState × Option String :=
  let prompt := jsTrim st.inputValue
  if prompt = "" then (st, none)
  else
    ({ st with bubbles := st.bubbles ++ [(prompt, true)], inputValue := "", typing := true },
     some prompt)

/-! ## The student grid and `saveTableEdits` (lines 163-234)

A `StudentRow` holds the trimmed-on-read `innerText` of the 11 data
cells of one `<tr>` of the student table (a `<tr>` with no `<td>` at all
is skipped by the `!cells.length` guard and not represented).  The
source re-defines `saveTableEdits` twice with identical bodies (lines
163 and 462); the later definition wins in JavaScript and both are the
function embedded here. -/
structure StudentRow where
  id : String
  name : String
  age : String
  sclass : String
  division : String
  address : String
  phone : String
  guardian : String
  guardianPhone : String
  attendance : String
  grades : String
deriving DecidableEq, Repr

/-- One element of the `updates` array sent to `/bulk_update_students`.
The source attempts `JSON.parse` on the grades cell inside a
`try`/`catch`, keeping the raw string when parsing fails; the parse can
therefore never throw out of `saveTableEdits`, and since no claim
inspects the parsed shape the field is modelled as the trimmed raw
string. -/
structure StudentUpdate where
  id : String
  name : String
  age : Int
  sclass : String
  division : String
  address : String
  phone : String
  guardian_name : String
  guardian_phone : String
  attendance : String
  grades : String
deriving DecidableEq, Repr

/-- Modelled from the spec: `_safe_int` is called by `saveTableEdits`
(scripts.js lines 195 and 494) but its definition is not under `src/`.
The spec states the policy: "Numeric fields (age) are coerced with a
safe integer policy: non-numeric input yields a well-defined fallback
(e.g., the original numeric default or zero) rather than propagating a
parse failure."  It is modelled as an integer parse with fallback `0`. -/
def _safe_int (s : String) : Int := (jsParseInt (jsTrim s)).getD 0

/-- The per-row validation warning of lines 186-190, naming the
offending student id. -/
def studentWarning (sid : String) : String :=
  "Student ID " ++ sid ++ " is missing " ++ quoteChar ++ "Name" ++ quoteChar ++ ", " ++ quoteChar ++ "Class" ++
    quoteChar ++ ", or " ++ quoteChar ++ "Division" ++ quoteChar ++ ". Please fill them in."

/-- Per-row outcome inside the `rows.forEach` scan of `saveTableEdits`. -/
inductive RowOutcome
  | skipped
  | invalid (warning : String)
  | included (u : StudentUpdate)
deriving DecidableEq, Repr

/-- One iteration of the `rows.forEach` of `saveTableEdits` (lines
166-205): trim the id cell, skip silently when it is empty or the `ID`
placeholder; trim the remaining cells; warn and exclude when name,
class or division is empty; otherwise push the update with the age
coerced through `_safe_int`. -/
def extractStudentRow (r : StudentRow) : RowOutcome :=
  let sid := jsTrim r.id
  if sid = "" || sid = "ID" then RowOutcome.skipped
  else
    let name := jsTrim r.name
    let age := jsTrim r.age
    let sclass := jsTrim r.sclass
    let division := jsTrim r.division
    if name = "" || sclass = "" || division = "" then
      RowOutcome.invalid (studentWarning sid)
    else
      RowOutcome.included
        { id := sid, name := name, age := _safe_int age, sclass := sclass,
          division := division, address := jsTrim r.address, phone := jsTrim r.phone,
          guardian_name := jsTrim r.guardian, guardian_phone := jsTrim r.guardianPhone,
          attendance := jsTrim r.attendance, grades := jsTrim r.grades }

/-- The whole scan of `saveTableEdits`: the `updates` array it builds,
paired with the warning toasts shown during the scan, both in row
order. -/
def extractDiff : List StudentRow → List StudentUpdate × List Toast
  | [] => ([], [])
  | r :: rs =>
    match extractStudentRow r with
    | RowOutcome.skipped => extractDiff rs
    | RowOutcome.invalid w =>
      ((extractDiff rs).1, Toast.mk w ToastType.warning :: (extractDiff rs).2)
    | RowOutcome.included u => (u :: (extractDiff rs).1, (extractDiff rs).2)

/-- `saveTableEdits` before the `fetch` (lines 163-210): scan the rows,
append the warning toasts; when no update survived, toast
"No valid changes to save." and return without a request, otherwise
return the update list to be posted to `/bulk_update_students`. -/
def saveTableEditsPhase1 (rows : List StudentRow) (st : UIState) :
    UIState × Option (List StudentUpdate) :=
  let scanRes := extractDiff rows
  let st1 := { st with toasts := st.toasts ++ scanRes.2 }
  if scanRes.1.isEmpty then
    ({ st1 with toasts := st1.toasts ++ [Toast.mk "No valid changes to save." ToastType.warning] }, none)
  else (st1, some scanRes.1)

/-- Body of the `/bulk_update_students` response. -/
structure BulkResponse where
  success : Bool
  error : Option String
deriving DecidableEq, Repr

/-- `saveTableEdits` after the `fetch` resolves (lines 212-233): on
`success` a confirmation bubble and toast; otherwise an error bubble
carrying `data.error || unknown` and a generic danger toast — and in
both cases, still inside the `try`, the table panel is closed and the
chat slides back.  A network failure is caught and produces only the
error bubble and a danger toast (the panel is left as it was). -/
def saveTableEditsPhase2 (result : FetchResult BulkResponse) (st : UIState) : UIState :=
  match result with
  | FetchResult.ok data =>
    let st1 :=
      if data.success then
        { st with bubbles := st.bubbles ++ [("Changes saved to Firebase!", false)],
                  toasts := st.toasts ++ [Toast.mk "Changes saved successfully!" ToastType.success] }
      else
        { st with
            bubbles := st.bubbles ++
              [("Error saving changes: " ++ jsOrDefault data.error "unknown", false)],
            toasts := st.toasts ++ [Toast.mk "Error saving changes." ToastType.danger] }
    { st1 with tableShow := false, slideLeft := false }
  | FetchResult.netError err =>
    { st with bubbles := st.bubbles ++ [("Error saving changes: " ++ err, false)],
              toasts := st.toasts ++ [Toast.mk "Error saving changes." ToastType.danger] }

/-! ## The grades panel (`openGradesPanel`, `renderGradesTable`,
`saveGradesEdits`, scripts.js lines 296-432) -/

/-- The per-student term marks of one subject, as one entry of the
`marks` object (`Object.entries` preserves insertion order, so the
object is modelled as an ordered list of entries).  A term missing from
the object is `none`.  Server-side marks are modelled by their string
rendering in the template literal. -/
structure SubjectMarks where
  student_id : String
  term1 : Option String
  term2 : Option String
  term3 : Option String
deriving DecidableEq, Repr

/-- One element of the `grades` array of the `/get_grades` response.
`subject.marks || {}` maps an absent `marks` object to no rows, which
the empty list covers. -/
structure Subject where
  subject_id : String
  subject_name : String
  marks : List SubjectMarks
deriving DecidableEq, Repr

/-- Body of the `/get_grades` response; `if (data.grades)` tests the
field for presence (an empty array is still truthy). -/
structure GradesResponse where
  grades : Option (List Subject)
deriving DecidableEq, Repr

/-- One `contenteditable` term cell of the grades table;
`terms.termN || ''` renders an absent term as the empty string. -/
def renderTermCell (t : Option String) : String :=
  "<td contenteditable=\"true\">" ++ t.getD "" ++ "</td>"

/-- One `<tr>` of the grades table, as built by the template literal of
`renderGradesTable` (lines 347-361); the indentation and newlines of the
template play no role and are elided. -/
def renderGradeRow (subject_id subject_name : String) (m : SubjectMarks) : String :=
  "<tr><td>" ++ subject_id ++ "</td><td>" ++ subject_name ++ "</td><td>" ++ m.student_id ++
    "</td>" ++ renderTermCell m.term1 ++ renderTermCell m.term2 ++ renderTermCell m.term3 ++
    "<td><button class=\"btn btn-danger btn-delete-grade\" onclick=\"deleteGrade(" ++
    quoteChar ++ subject_id ++ quoteChar ++ ", " ++ quoteChar ++ m.student_id ++ quoteChar ++
    ")\"><i class=\"fas fa-trash-alt\"></i></button></td></tr>"

/-- The fixed table head of the grades table (lines 325-339). -/
def gradesTableHeader : String :=
  "<table class=\"table table-bordered table-sm\"><thead><tr><th>Subject ID</th>" ++
    "<th>Subject Name</th><th>Student ID</th><th>Term 1</th><th>Term 2</th><th>Term 3</th>" ++
    "<th>Actions</th></tr></thead><tbody>"

/-- The rows contributed by one subject: one `<tr>` per entry of its
`marks` object. -/
def renderSubjectRows (s : Subject) : String :=
  s.marks.foldl (fun acc m => acc ++ renderGradeRow s.subject_id s.subject_name m) ""

/-- `renderGradesTable` (lines 324-371): build the whole table markup
and assign it to `#gradesContent` (the assignment happens in
`openGradesPanel` below; this function is the pure markup builder). -/
def renderGradesTable (grades : List Subject) : String :=
  gradesTableHeader ++ grades.foldl (fun acc s => acc ++ renderSubjectRows s) "" ++
    "</tbody></table>"

/-- `openGradesPanel` (lines 296-316) after its `/get_grades` fetch
resolves: when the response carries a `grades` field the table is
re-rendered (replacing `#gradesContent` wholesale) and the grades
section gains `show`; a response without the field shows a danger
toast, and a network failure shows a danger toast (plus a console log,
not modelled).  Note that no branch touches `tablePanel`. -/
def openGradesPanel (resp : FetchResult GradesResponse) (st : UIState) : UIState :=
  match resp with
  | FetchResult.ok data =>
    match data.grades with
    | some gs => { st with gradesContent := renderGradesTable gs, gradesShow := true }
    | none => { st with toasts := st.toasts ++ [Toast.mk "Failed to load grades." ToastType.danger] }
  | FetchResult.netError _ =>
    { st with toasts := st.toasts ++ [Toast.mk "Error fetching grades." ToastType.danger] }

/-- The trimmed `innerText` of the six data cells of one row of the
grades grid, as `saveGradesEdits` reads them. -/
structure GradeRow where
  subject_id : String
  subject_name : String
  student_id : String
  term1 : String
  term2 : String
  term3 : String
deriving DecidableEq, Repr

/-- One element of the `updates` array of `saveGradesEdits`: a single
term unit posted on its own to `/update_grades`. -/
structure GradeUpdate where
  subject_id : String
  subject_name : String
  student_id : String
  term : String
  marks : Int
deriving DecidableEq, Repr

/-- One iteration of the `rows.forEach` of `saveGradesEdits` (lines
378-406): every row unconditionally contributes three update units, one
per term, with the marks parsed by `parseInt(cell.trim()) || 0`.  No
identity-key filtering of any kind is performed here. -/
def gradeRowUnits (r : GradeRow) : List GradeUpdate :=
  let subject_id := jsTrim r.subject_id
  let subject_name := jsTrim r.subject_name
  let student_id := jsTrim r.student_id
  [ { subject_id := subject_id, subject_name := subject_name, student_id := student_id,
      term := "term1", marks := jsParseIntOr0 r.term1 },
    { subject_id := subject_id, subject_name := subject_name, student_id := student_id,
      term := "term2", marks := jsParseIntOr0 r.term2 },
    { subject_id := subject_id, subject_name := subject_name, student_id := student_id,
      term := "term3", marks := jsParseIntOr0 r.term3 } ]

/-- The whole `updates` array built by the scan of `saveGradesEdits`. -/
def extractGradeUpdates : List GradeRow → List GradeUpdate
  | [] => []
  | r :: rs => gradeRowUnits r ++ extractGradeUpdates rs

/-- One outgoing request of the submission loop of `saveGradesEdits`
(lines 409-428): `for (const update of updates)` issues one POST to
`/update_grades` per unit. -/
structure RemoteCall where
  url : String
  body : GradeUpdate
deriving DecidableEq, Repr

/-- The request sequence of the submission loop: exactly one remote call
per update unit, in order. -/
def submitGradeCalls (updates : List GradeUpdate) : List RemoteCall :=
  updates.map (fun u => { url := "/update_grades", body := u })

/-! ## The student delete workflow (`initializeTableFunctionality`
lines 93-109 and `deleteStudent` lines 112-132) -/

/-- The `/process_prompt` (or `/delete_grade` style) response body used
by the delete path: an optional `message` and an optional `error`. -/
structure DeleteResponse where
  message : Option String
  error : Option String
deriving DecidableEq, Repr

/-- Observable effects of one click on a row's delete button: the
request body sent to `/process_prompt` (if any), whether the row was
removed from the table, and the toasts shown. -/
structure DeleteEffects where
  requestPrompt : Option String
  rowRemoved : Bool
  toasts : List Toast
deriving DecidableEq, Repr

/-- The prompt string `deleteStudent` posts (line 119). -/
def deleteStudentPrompt (sid : String) : String :=
  "delete_student \x7b\"id\": \"" ++ sid ++ "\"\x7d"

/-- `deleteStudent` (lines 112-132), given the outcome of its fetch: a
truthy `message` shows a success toast and removes the row; otherwise a
truthy `error` shows a danger toast and the row stays; a response with
neither does nothing; a caught network failure shows a danger toast.
The request is always issued before any of this. -/
def deleteStudentOutcome (sid : String) (resp : FetchResult DeleteResponse) : DeleteEffects :=
  match resp with
  | FetchResult.ok data =>
    if jsTruthy data.message then
      { requestPrompt := some (deleteStudentPrompt sid), rowRemoved := true,
        toasts := [Toast.mk (data.message.getD "") ToastType.success] }
    else if jsTruthy data.error then
      { requestPrompt := some (deleteStudentPrompt sid), rowRemoved := false,
        toasts := [Toast.mk (data.error.getD "") ToastType.danger] }
    else
      { requestPrompt := some (deleteStudentPrompt sid), rowRemoved := false, toasts := [] }
  | FetchResult.netError _ =>
    { requestPrompt := some (deleteStudentPrompt sid), rowRemoved := false,
      toasts := [Toast.mk "Error deleting student." ToastType.danger] }

/-- The click handler attached by `initializeTableFunctionality` (lines
96-107): read and trim the row's `.student-id` cell; the literal `ID`
placeholder is rejected with a warning before any confirmation or
request; otherwise `confirm(...)` gates the call to `deleteStudent`.
`confirmed` is the user's answer to that blocking prompt, and `resp` is
the response the remote end would give if the request were issued (the
effects are independent of it whenever no request is made). -/
def handleDeleteClick (rawId : String) (confirmed : Bool)
    (resp : FetchResult DeleteResponse) : DeleteEffects :=
  let studentId := jsTrim rawId
  if studentId = "ID" then
    { requestPrompt := none, rowRemoved := false,
      toasts := [Toast.mk "Cannot delete header row." ToastType.warning] }
  else if confirmed then deleteStudentOutcome studentId resp
  else { requestPrompt := none, rowRemoved := false, toasts := [] }

/-- Whether a delete-path response is a success message (a truthy
`message` field), the only outcome on which the row is removed. -/
def respSuccess (resp : FetchResult DeleteResponse) : Bool :=
  match resp with
  | FetchResult.ok data => jsTruthy data.message
  | FetchResult.netError _ => false

/-! ## Helper lemmas -/

/-- A row can only contribute an `included` update when its trimmed id
cell is neither empty nor the `ID` placeholder, and the update carries
that trimmed id. -/
theorem extractStudentRow_included_id (r : StudentRow) (u : StudentUpdate)
    (h : extractStudentRow r = RowOutcome.included u) :
    u.id = jsTrim r.id ∧ u.id ≠ "" ∧ u.id ≠ "ID" := by
  unfold extractStudentRow at h
  by_cases h1 : (decide (jsTrim r.id = "") || decide (jsTrim r.id = "ID")) = true
  · simp only [if_pos h1] at h
    exact absurd h (by simp)
  · simp only [Bool.not_eq_true] at h1
    rw [if_neg (by simp [h1])] at h
    by_cases h2 : (decide (jsTrim r.name = "") || decide (jsTrim r.sclass = "") ||
        decide (jsTrim r.division = "")) = true
    · rw [if_pos (by simpa using h2)] at h
      exact absurd h (by simp)
    · rw [if_neg (by simpa using h2)] at h
      have hu : u.id = jsTrim r.id := by
        cases h
        rfl
      have hne := Bool.or_eq_false_iff.mp h1
      refine ⟨hu, ?_, ?_⟩
      · rw [hu]; simpa using hne.1
      · rw [hu]; simpa using hne.2

/-- Every grade row contributes exactly three update units. -/
theorem extractGradeUpdates_length (grows : List GradeRow) :
    (extractGradeUpdates grows).length = 3 * grows.length := by
  induction grows with
  | nil => rfl
  | cons g gs ih =>
    simp only [extractGradeUpdates, gradeRowUnits, List.length_append, List.length_cons,
      List.length_nil, ih]
    omega

/-! ## Claim theorems -/

/-- C1 counterexample: handling the table reply `<table>` while the
grade panel is open leaves BOTH panels showing — `parseReply` never
closes `gradesSection`, so the mutual-exclusion invariant fails at this
concrete input. -/
theorem parseReply_both_panels_open :
    exactlyOnePanelOpen
      (parseReply "<table>" (UIState.mk false true false "" "" [] [] "" false)) = false := by
  decide

/-- C1 (amended): handling a table reply opens the student panel and
leaves the grade panel exactly as it was (it is not closed), and
`openGradesPanel` opens the grade panel leaving the student panel as it
was; mutual exclusion therefore holds only when the other panel was
already closed. -/
theorem parseReply_openGradesPanel_leave_other_panel :
    ∀ (reply : String) (st : UIState), isTableReply reply = true →
      ((parseReply reply st).tableShow = true ∧
        (parseReply reply st).gradesShow = st.gradesShow) ∧
      (∀ (gs : List Subject) (st2 : UIState),
        (openGradesPanel (FetchResult.ok ⟨some gs⟩) st2).gradesShow = true ∧
        (openGradesPanel (FetchResult.ok ⟨some gs⟩) st2).tableShow = st2.tableShow) := by
  intro reply st h
  constructor
  · constructor <;> simp [parseReply, h]
  · intro gs st2
    constructor <;> simp [openGradesPanel]

/-- C1 witness: the amended theorem applied to the reply `<table>` and a
state whose grade panel is open; afterwards both panels are showing. -/
theorem parseReply_openGradesPanel_leave_other_panel_witness :
    (parseReply "<table>" (UIState.mk false true false "" "" [] [] "" false)).tableShow = true ∧
    (parseReply "<table>" (UIState.mk false true false "" "" [] [] "" false)).gradesShow = true :=
  ⟨(parseReply_openGradesPanel_leave_other_panel "<table>"
      (UIState.mk false true false "" "" [] [] "" false) (by decide)).1.1,
   (parseReply_openGradesPanel_leave_other_panel "<table>"
      (UIState.mk false true false "" "" [] [] "" false) (by decide)).1.2⟩

/-- C2 counterexample: on `{success:false, error:"stale id"}` the
handler closes the student panel (refuting "the panel remains open"),
and the danger toast it shows is the generic
`Error saving changes.` which does not contain `stale id`. -/
theorem bulk_failure_closes_panel_counterexample :
    (UIState.mk true false true "rows" "" [] [] "" false).tableShow = true ∧
    (saveTableEditsPhase2 (FetchResult.ok ⟨false, some "stale id"⟩)
        (UIState.mk true false true "rows" "" [] [] "" false)).tableShow = false ∧
    (saveTableEditsPhase2 (FetchResult.ok ⟨false, some "stale id"⟩)
        (UIState.mk true false true "rows" "" [] [] "" false)).toasts =
      [Toast.mk "Error saving changes." ToastType.danger] ∧
    jsIncludes "Error saving changes." "stale id" = false := by
  refine ⟨rfl, rfl, rfl, by decide⟩

/-- C2 (amended): for every bulk-update response with `success:false`,
the grid's pending rows (the table panel content) are left unchanged, a
danger toast with the generic text `Error saving changes.` is shown, the
server's error string is surfaced in a conversation bubble
(`data.error || unknown`), and the student panel is CLOSED — the code
closes it on success and failure alike. -/
theorem bulk_failure_rows_unchanged_panel_closed :
    ∀ (e : Option String) (st : UIState),
      (saveTableEditsPhase2 (FetchResult.ok ⟨false, e⟩) st).tableContent = st.tableContent ∧
      (saveTableEditsPhase2 (FetchResult.ok ⟨false, e⟩) st).toasts =
        st.toasts ++ [Toast.mk "Error saving changes." ToastType.danger] ∧
      (saveTableEditsPhase2 (FetchResult.ok ⟨false, e⟩) st).bubbles =
        st.bubbles ++ [("Error saving changes: " ++ jsOrDefault e "unknown", false)] ∧
      (saveTableEditsPhase2 (FetchResult.ok ⟨false, e⟩) st).tableShow = false := by
  intro e st
  refine ⟨rfl, ?_, ?_, rfl⟩ <;> simp [saveTableEditsPhase2]

/-- C3: the diff scan of `saveTableEdits` always completes, ending
either in the no-valid-changes notification (with the per-row warnings
shown first) or in a non-empty submission; and the (spec-modelled)
`_safe_int` coercion maps every non-numeric age to the fallback `0`
instead of propagating a parse failure. -/
theorem saveTableEdits_completes_safe_int_fallback :
    ∀ (rows : List StudentRow) (st : UIState),
      (((saveTableEditsPhase1 rows st).2 = none ∧
          (saveTableEditsPhase1 rows st).1.toasts =
            st.toasts ++ (extractDiff rows).2 ++
              [Toast.mk "No valid changes to save." ToastType.warning]) ∨
        (∃ us, (saveTableEditsPhase1 rows st).2 = some us ∧ us ≠ [])) ∧
      (∀ s : String, jsParseInt (jsTrim s) = none → _safe_int s = 0) := by
  intro rows st
  constructor
  · by_cases h : (extractDiff rows).1.isEmpty
    · left
      constructor <;> simp [saveTableEditsPhase1, h]
    · right
      refine ⟨(extractDiff rows).1, by simp [saveTableEditsPhase1, h], ?_⟩
      intro hnil
      rw [hnil] at h
      exact h rfl
  · intro s hs
    simp [_safe_int, hs]

/-- C3 witness: the fallback part of the theorem applied to the
non-numeric age `abc`, which coerces to `0`. -/
theorem safe_int_nonnumeric_witness : _safe_int "abc" = 0 :=
  (saveTableEdits_completes_safe_int_fallback []
    (UIState.mk false false false "" "" [] [] "" false)).2 "abc" (by decide)

/-- C4 counterexample: a grade-grid row whose identity keys
(`subject_id`, `student_id`) are both empty still yields three submitted
update units — `saveGradesEdits` performs no identity filtering, so the
claim fails for the grade grid. -/
theorem gradeRow_empty_identity_submitted :
    (extractGradeUpdates [⟨"", "Math", "", "1", "2", "3"⟩]).length = 3 ∧
    (extractGradeUpdates [⟨"", "Math", "", "1", "2", "3"⟩]).map GradeUpdate.student_id =
      ["", "", ""] := by
  constructor <;> rfl

/-- C4 (amended): the student-grid scan excludes every row whose trimmed
identity key is empty or the `ID` placeholder — every submitted student
update carries a non-empty, non-placeholder id — while the grade-grid
scan filters nothing: every row, whatever its identity cells hold,
contributes exactly three update units. -/
theorem extractDiff_id_filter_grades_unfiltered :
    (∀ (rows : List StudentRow) (u : StudentUpdate),
        u ∈ (extractDiff rows).1 → u.id ≠ "" ∧ u.id ≠ "ID") ∧
    (∀ grows : List GradeRow, (extractGradeUpdates grows).length = 3 * grows.length) := by
  constructor
  · intro rows
    induction rows with
    | nil =>
      intro u hu
      simp [extractDiff] at hu
    | cons r rs ih =>
      intro u hu
      rw [extractDiff] at hu
      cases h : extractStudentRow r with
      | skipped =>
        rw [h] at hu
        exact ih u hu
      | invalid w =>
        rw [h] at hu
        exact ih u hu
      | included v =>
        rw [h] at hu
        rcases List.mem_cons.mp hu with rfl | hm
        · exact (extractStudentRow_included_id r u h).2
        · exact ih u hm
  · exact extractGradeUpdates_length

/-- C4 witness: a row with the valid id `7` passes the filter and its
update's id is neither empty nor the placeholder. -/
theorem extractDiff_id_filter_witness :
    ({ id := "7", name := "Al", age := 9, sclass := "5", division := "B", address := "a",
       phone := "p", guardian_name := "g", guardian_phone := "gp", attendance := "90",
       grades := "x" } : StudentUpdate).id ≠ "" ∧
    ({ id := "7", name := "Al", age := 9, sclass := "5", division := "B", address := "a",
       phone := "p", guardian_name := "g", guardian_phone := "gp", attendance := "90",
       grades := "x" } : StudentUpdate).id ≠ "ID" :=
  extractDiff_id_filter_grades_unfiltered.1
    [⟨"7", "Al", "9", "5", "B", "a", "p", "g", "gp", "90", "x"⟩] _ (by decide)

/-- C5: every student row with a valid identity key but an empty name,
class or division cell is excluded with the per-row warning naming that
id; in particular the grid holding only the row
`id 1, empty name, class 5, division B` yields an empty diff and
exactly the warning naming id `1`. -/
theorem extractDiff_invalid_row_warning :
    (∀ r : StudentRow, jsTrim r.id ≠ "" → jsTrim r.id ≠ "ID" →
        (jsTrim r.name = "" ∨ jsTrim r.sclass = "" ∨ jsTrim r.division = "") →
        extractStudentRow r = RowOutcome.invalid (studentWarning (jsTrim r.id))) ∧
    extractDiff [⟨"1", "", "10", "5", "B", "", "", "", "", "", ""⟩] =
      ([], [Toast.mk (studentWarning "1") ToastType.warning]) ∧
    jsIncludes (studentWarning "1") "1" = true := by
  refine ⟨?_, by decide, by decide⟩
  intro r h1 h2 h3
  have hc : (decide (jsTrim r.id = "") || decide (jsTrim r.id = "ID")) = false := by
    simp [h1, h2]
  have hv : (decide (jsTrim r.name = "") || decide (jsTrim r.sclass = "") ||
      decide (jsTrim r.division = "")) = true := by
    rcases h3 with h | h | h <;> simp [h]
  unfold extractStudentRow
  rw [if_neg (by simp [hc]), if_pos (by simpa using hv)]

/-- C5 witness: the theorem applied to the scenario row with id `1` and
an empty name. -/
theorem extractDiff_invalid_row_warning_witness :
    extractStudentRow ⟨"1", "", "10", "5", "B", "", "", "", "", "", ""⟩ =
      RowOutcome.invalid (studentWarning (jsTrim "1")) :=
  extractDiff_invalid_row_warning.1 ⟨"1", "", "10", "5", "B", "", "", "", "", "", ""⟩
    (by decide) (by decide) (Or.inl (by decide))

/-- C6: a student row is removed exactly when the id is not the header
placeholder AND the user confirmed AND the server answered with a truthy
success message; and a request is issued exactly when the id is valid
and the user confirmed — so declining sends nothing and removes nothing,
and a server error or network failure after confirmation leaves the row
in place. -/
theorem deleteStudent_requires_confirm_and_success :
    ∀ (rawId : String) (confirmed : Bool) (resp : FetchResult DeleteResponse),
      (handleDeleteClick rawId confirmed resp).rowRemoved =
        (decide (jsTrim rawId ≠ "ID") && confirmed && respSuccess resp) ∧
      (handleDeleteClick rawId confirmed resp).requestPrompt.isSome =
        (decide (jsTrim rawId ≠ "ID") && confirmed) := by
  intro rawId confirmed resp
  by_cases hid : jsTrim rawId = "ID"
  · simp [handleDeleteClick, hid]
  · cases confirmed with
    | false => simp [handleDeleteClick, hid]
    | true =>
      cases resp with
      | ok data =>
        by_cases hm : jsTruthy data.message = true
        · simp [handleDeleteClick, deleteStudentOutcome, respSuccess, hid, hm]
        · by_cases he : jsTruthy data.error = true
          · simp [handleDeleteClick, deleteStudentOutcome, respSuccess, hid, hm, he]
          · simp [handleDeleteClick, deleteStudentOutcome, respSuccess, hid, hm, he]
      | netError e =>
        simp [handleDeleteClick, deleteStudentOutcome, respSuccess, hid]

/-- C7: every grade-grid row decomposes into exactly three update units
labelled `term1`, `term2`, `term3`, each posted as its own remote call,
with the marks parsed by `parseInt(..) || 0`; the scenario row with
terms `85`, `abc`, `` yields marks `85`, `0`, `0`. -/
theorem saveGradesEdits_three_units_per_row :
    (∀ grows : List GradeRow,
        (extractGradeUpdates grows).length = 3 * grows.length ∧
        (submitGradeCalls (extractGradeUpdates grows)).length =
          (extractGradeUpdates grows).length) ∧
    (∀ g : GradeRow,
        (gradeRowUnits g).map GradeUpdate.term = ["term1", "term2", "term3"] ∧
        (gradeRowUnits g).map GradeUpdate.marks =
          [jsParseIntOr0 g.term1, jsParseIntOr0 g.term2, jsParseIntOr0 g.term3]) ∧
    gradeRowUnits ⟨"S1", "Math", "42", "85", "abc", ""⟩ =
      [⟨"S1", "Math", "42", "term1", 85⟩, ⟨"S1", "Math", "42", "term2", 0⟩,
        ⟨"S1", "Math", "42", "term3", 0⟩] := by
  refine ⟨?_, ?_, by decide⟩
  · intro grows
    exact ⟨extractGradeUpdates_length grows, by simp [submitGradeCalls]⟩
  · intro g
    exact ⟨rfl, rfl⟩

/-- C8: clicking delete on the header/placeholder row (trimmed id `ID`)
always produces exactly the warning toast, no request and no removal,
regardless of the confirmation answer or what the server would say. -/
theorem delete_header_row_rejected :
    ∀ (rawId : String) (confirmed : Bool) (resp : FetchResult DeleteResponse),
      jsTrim rawId = "ID" →
      handleDeleteClick rawId confirmed resp =
        { requestPrompt := none, rowRemoved := false,
          toasts := [Toast.mk "Cannot delete header row." ToastType.warning] } := by
  intro rawId confirmed resp h
  simp [handleDeleteClick, h]

/-- C8 witness: the theorem applied to the literal id `ID` with the user
confirming and the server ready to answer success. -/
theorem delete_header_row_rejected_witness :
    handleDeleteClick "ID" true (FetchResult.ok ⟨some "gone", none⟩) =
      { requestPrompt := none, rowRemoved := false,
        toasts := [Toast.mk "Cannot delete header row." ToastType.warning] } :=
  delete_header_row_rejected "ID" true (FetchResult.ok ⟨some "gone", none⟩) (by decide)

/-- C9: refreshing the grade panel is idempotent — for any fixed
`/get_grades` response, applying `openGradesPanel` twice in a row leaves
the same rendered grades table and the same visibility as applying it
once (the rendering wholesale replaces `#gradesContent`, it never
appends). -/
theorem openGradesPanel_idempotent :
    ∀ (resp : FetchResult GradesResponse) (st : UIState),
      (openGradesPanel resp (openGradesPanel resp st)).gradesContent =
        (openGradesPanel resp st).gradesContent ∧
      (openGradesPanel resp (openGradesPanel resp st)).gradesShow =
        (openGradesPanel resp st).gradesShow := by
  intro resp st
  cases resp with
  | ok data =>
    cases hg : data.grades with
    | some gs => simp [openGradesPanel, hg]
    | none => simp [openGradesPanel, hg]
  | netError e => simp [openGradesPanel]

/-- C10: when the prompt input is empty or all whitespace, `sendPrompt`
returns at the trim guard: no request is issued, no bubble is appended,
the input is not cleared — the whole observable state is unchanged. -/
theorem sendPrompt_whitespace_noop :
    ∀ st : UIState, st.inputValue.data.all jsIsWhitespaceChar = true →
      sendPromptPre st = (st, none) := by
  intro st h
  have h1 : jsTrim st.inputValue = "" := by
    unfold jsTrim
    have hd : st.inputValue.data.dropWhile jsIsWhitespaceChar = [] := by
      rw [List.dropWhile_eq_nil_iff]
      intro x hx
      exact (List.all_eq_true.mp h) x hx
    rw [hd]
    rfl
  simp [sendPromptPre, h1]

/-- C10 witness: the theorem applied to a state whose input holds only
blanks and a tab; the state is returned untouched and no request body is
produced. -/
theorem sendPrompt_whitespace_noop_witness :
    sendPromptPre (UIState.mk false false false "" "" [] [] "  \t " false) =
      (UIState.mk false false false "" "" [] [] "  \t " false, none) :=
  sendPrompt_whitespace_noop (UIState.mk false false false "" "" [] [] "  \t " false)
    (by decide)
